import Mathlib

/-!
Shallow embedding of the thread_local_scope crate (src/src/lib.rs).

The crate exposes a zero-sized token type LocalScope, an entry point
local_scope that hands a fresh token to a callback, and two access
operations (try_access, access) that turn a static thread-local handle
into a direct value, delegating to the standard library accessor
LocalKey::try_with.

The underlying thread-local-storage subsystem (std::thread::LocalKey and
the per-thread destructor machinery) is an external collaborator of the
crate and is not part of its sources; it is embedded here as an explicit
per-thread slot state machine, modelled from the words of the spec
(lazy initialization on first access, failure when initialization
previously failed or the slot is inside its teardown sequence).
Panics are embedded explicitly with the Outcome type.
-/

/-- Modelled from the spec: the error value of the external TLS subsystem,
std::thread::AccessError, signaling that a slot cannot currently be read.
It carries no data. -/
structure AccessError where
deriving DecidableEq, Repr

/-- Modelled from std: the Debug rendering of AccessError. -/
def AccessError.debugStr (_ : AccessError) : String := "AccessError"

/-- Modelled from the spec: the state of one thread-local slot on one
thread. A slot starts uninitialized, becomes ready after its lazy
initializer runs, is marked as failed when initialization previously
failed, and is destroyed during and after its teardown sequence. -/
inductive SlotState (T : Type) where
  | uninit
  | ready (v : T)
  | initFailed
  | destroyed
deriving DecidableEq, Repr

/-- Modelled from the spec: a static thread-local handle
(std::thread::LocalKey). Its only datum here is the initializer value
that the lazy initialization installs on first access. -/
structure LocalKey (T : Type) where
  init : T
deriving DecidableEq, Repr

/-- Modelled from the spec: the closure-based accessor
std::thread::LocalKey::try_with. Given the current slot state it runs
the closure on the slot value, initializing lazily on the first access,
and returns the new slot state with the result; when initialization
previously failed or the slot is destroyed it returns an AccessError
and leaves the state alone. -/
def LocalKey.try_with {T R : Type} (key : LocalKey T) (st : SlotState T)
    (f : T → R) : SlotState T × Except AccessError R :=
  match st with
  | .uninit => (.ready key.init, .ok (f key.init))
  | .ready v => (.ready v, .ok (f v))
  | .initFailed => (.initFailed, .error ⟨⟩)
  | .destroyed => (.destroyed, .error ⟨⟩)

/-- The outcome of running a piece of code that may panic: either a
normal return or a panic with a message. -/
inductive Outcome (A : Type) where
  | ok (a : A)
  | panicked (msg : String)
deriving DecidableEq, Repr

/-- The token type LocalScope of src/src/lib.rs, line 71. Its single
field in the source is PhantomData, so here it has no fields at all:
it carries no runtime data. The lifetime parameter is a purely static
artifact and is erased by the embedding. -/
structure LocalScope where
deriving DecidableEq, Repr

/-- LocalScope::unguarded_new (src/src/lib.rs line 101): constructs the
token. -/
def LocalScope.unguarded_new : LocalScope := ⟨⟩

/-- local_scope (src/src/lib.rs lines 85 to 93): calls the callback with
a freshly constructed token and returns whatever the callback returns. -/
def local_scope {R : Type} (f : LocalScope → R) : R :=
  f LocalScope.unguarded_new

/-- LocalScope::try_access (src/src/lib.rs lines 106 to 114): delegates
to LocalKey::try_with with a closure that returns the slot reference
itself (the source widens its lifetime; the embedding erases lifetimes,
so the closure is the identity on the slot value). -/
def LocalScope.try_access {T : Type} (_self : LocalScope)
    (target : LocalKey T) (st : SlotState T) :
    SlotState T × Except AccessError T :=
  target.try_with st (fun tls => tls)

/-- panic_access_error (src/src/lib.rs lines 128 to 130): panics with a
message embedding the Debug rendering of the error. -/
def panic_access_error {T : Type} (err : AccessError) : Outcome T :=
  .panicked
    ("cannot access a Thread Local Storage value during or after destruction: "
      ++ err.debugStr)

/-- LocalScope::access (src/src/lib.rs lines 117 to 122): matches on
try_access, returns the value on Ok and panics via panic_access_error
on Err. -/
def LocalScope.access {T : Type} (self : LocalScope)
    (target : LocalKey T) (st : SlotState T) : SlotState T × Outcome T :=
  match self.try_access target st with
  | (st2, .ok x) => (st2, .ok x)
  | (st2, .error ae) => (st2, panic_access_error ae)

/-- Modelled from the spec: thread-exit teardown of one slot, run once
per thread per slot. If the slot is ready, its value is taken out (the
slot becomes destroyed, so that accesses made from inside the destructor
observe the destroyed state) and the destructor body runs exactly once;
otherwise nothing runs. The destructor body is passed the slot state it
observes and its results are collected in a list, one entry per run. -/
def runTeardown {T A : Type} (st : SlotState T)
    (dtor : SlotState T → A) : SlotState T × List A :=
  match st with
  | .ready _ => (.destroyed, [dtor .destroyed])
  | s => (s, [])

/-- The thread-local handle MY_THING of the re_entrant test
(src/src/lib.rs lines 145 to 147); MyThing is a fieldless struct,
embedded as Unit. -/
def MY_THING : LocalKey Unit := ⟨()⟩

/-- The destructor body of MyThing in the re_entrant test
(src/src/lib.rs lines 150 to 161): it opens a new scope and checks that
try_access on MY_THING itself returns an error. Returns the result of
that check. -/
def my_thing_drop (stAtDrop : SlotState Unit) : Bool :=
  local_scope (fun sc =>
    match (sc.try_access MY_THING stAtDrop).2 with
    | .error _ => true
    | .ok _ => false)

/-- The spawned thread of the re_entrant test (src/src/lib.rs lines 163
to 169): starting from an uninitialized slot, enter a scope and access
MY_THING, then run thread-exit teardown with the MyThing destructor.
Returns whether the first access succeeded, together with the final slot
state and the list of destructor results. -/
def re_entrant_scenario : Bool × (SlotState Unit × List Bool) :=
  let first := local_scope (fun s => s.try_access MY_THING .uninit)
  let ok := match first.2 with
    | .ok _ => true
    | .error _ => false
  (ok, runTeardown first.1 my_thing_drop)

/-- The thread-local handles A and B of the swap test
(src/src/lib.rs lines 180 to 183): cells with initial values 0 and 1. -/
def A_key : LocalKey Nat := ⟨0⟩

/-- See A_key. -/
def B_key : LocalKey Nat := ⟨1⟩

/-- swap_local_cells of the swap test (src/src/lib.rs lines 176 to 178):
inside one scope, access both cells through the same token and swap
their contents through the obtained references. Slot states are passed
explicitly; Cell::swap exchanges the two stored values. -/
def swap_local_cells {T : Type} (ka kb : LocalKey T)
    (sa sb : SlotState T) : (SlotState T × SlotState T) × Outcome Unit :=
  local_scope (fun s =>
    match s.access ka sa with
    | (sa2, .ok a) =>
      match s.access kb sb with
      | (_, .ok b) => ((.ready b, .ready a), .ok ())
      | (sb2, .panicked m) => ((sa2, sb2), .panicked m)
    | (sa2, .panicked m) => ((sa2, sb), .panicked m))

/-- Modelled from the Rust language rules referenced by the spec: the
shape of a Rust type, as far as the auto trait rules for Send and Sync
and the size computation need it. -/
inductive RustTy where
  | unit
  | refTy (t : RustTy)
  | constPtr (t : RustTy)
  | phantomData (t : RustTy)
deriving DecidableEq, Repr

/-- Modelled from the Rust language rules: whether a type is Sync. Raw
const pointers are never Sync; a shared reference is Sync when its
referent is; PhantomData of T is Sync when T is. -/
def RustTy.isSync : RustTy → Bool
  | .unit => true
  | .refTy t => t.isSync
  | .constPtr _ => false
  | .phantomData t => t.isSync

/-- Modelled from the Rust language rules: whether a type is Send. Raw
const pointers are never Send; a shared reference is Send when its
referent is Sync; PhantomData of T is Send when T is. -/
def RustTy.isSend : RustTy → Bool
  | .unit => true
  | .refTy t => t.isSync
  | .constPtr _ => false
  | .phantomData t => t.isSend

/-- Modelled from the Rust language rules: size in bytes on a 64-bit
target. PhantomData and the empty tuple are zero-sized. -/
def RustTy.sizeOf : RustTy → Nat
  | .unit => 0
  | .refTy _ => 8
  | .constPtr _ => 8
  | .phantomData _ => 0

/-- The representation of LocalScope as declared at src/src/lib.rs line
71: PhantomData of a const pointer to a reference to the unit type. The
lifetime parameter does not enter the shape, so this representation is
the same for every lifetime parameterization. -/
def LocalScopeRepr : RustTy := .phantomData (.constPtr (.refTy .unit))

/-- The observable behavior of one complete call to
LocalScope::try_access, panic possibility included. The body of
try_access (src/src/lib.rs lines 106 to 114) contains no panic site and
performs exactly one call to LocalKey::try_with, which itself returns a
value or an error rather than panicking, so the call returns normally
with the result of that single underlying call. -/
def LocalScope.try_access_run {T : Type} (self : LocalScope)
    (target : LocalKey T) (st : SlotState T) :
    Outcome (SlotState T × Except AccessError T) :=
  .ok (self.try_access target st)

/-- Claim C1: for every live token and handle, try_access is equivalent
to the closure-based accessor LocalKey::try_with: for every closure f,
try_with leaves the slot in the same state as try_access, succeeds
exactly when try_access succeeds with f applied to the same slot value,
and fails exactly when try_access fails, with the same AccessError. -/
theorem try_access_refines_try_with {T R : Type} (s : LocalScope)
    (key : LocalKey T) (st : SlotState T) (f : T → R) :
    (key.try_with st f).1 = (s.try_access key st).1 ∧
    (key.try_with st f).2 = Except.map f (s.try_access key st).2 := by
  cases st <;>
    simp [LocalKey.try_with, LocalScope.try_access, Except.map]

/-- Claim C2: access delegates to try_access: when try_access returns
Ok x, access returns x without panicking and with the same slot state;
when try_access returns Err e, access panics with a message embedding
the debug rendering of e, and never returns normally. -/
theorem access_delegates {T : Type} (s : LocalScope) (key : LocalKey T)
    (st : SlotState T) :
    (∀ x : T, (s.try_access key st).2 = .ok x →
      s.access key st = ((s.try_access key st).1, .ok x)) ∧
    (∀ e : AccessError, (s.try_access key st).2 = .error e →
      ∃ pre post : String,
        s.access key st =
          ((s.try_access key st).1,
            .panicked (pre ++ e.debugStr ++ post)) ∧
        ∀ x : T, (s.access key st).2 ≠ .ok x) := by
  constructor
  · intro x hx
    cases st <;>
      simp_all [LocalScope.access, LocalScope.try_access,
        LocalKey.try_with]
  · intro e he
    refine ⟨"cannot access a Thread Local Storage value during or after destruction: ",
      "", ?_, ?_⟩ <;>
      cases st <;>
        simp_all [LocalScope.access, LocalScope.try_access,
          LocalKey.try_with, panic_access_error, AccessError.debugStr]

/-- Witness for claim C2: at a ready slot the instantiation of
access_delegates yields the value 7 without a panic, and at a destroyed
slot it yields a panic embedding the AccessError debug rendering. -/
theorem access_delegates_witness :
    ((⟨⟩ : LocalScope).access (⟨7⟩ : LocalKey Nat) .uninit =
      (.ready 7, .ok 7)) ∧
    (∃ pre post : String,
      (⟨⟩ : LocalScope).access (⟨7⟩ : LocalKey Nat) .destroyed =
        (.destroyed,
          .panicked (pre ++ AccessError.debugStr ⟨⟩ ++ post)) ∧
      ∀ x : Nat,
        ((⟨⟩ : LocalScope).access (⟨7⟩ : LocalKey Nat) .destroyed).2 ≠
          .ok x) :=
  ⟨(access_delegates ⟨⟩ ⟨7⟩ .uninit).1 7 rfl,
   (access_delegates ⟨⟩ ⟨7⟩ .destroyed).2 ⟨⟩ rfl⟩

/-- Claim C3: try_access on a slot inside its teardown sequence
deterministically returns an AccessError for every token and handle;
the re_entrant test scenario runs the destructor exactly once, the
nested try_access made from inside the destructor observes the error,
and a second teardown of the same slot runs no destructor again. -/
theorem re_entrant_teardown :
    (∀ (T : Type) (s : LocalScope) (key : LocalKey T),
      (s.try_access key .destroyed).2 = .error ⟨⟩) ∧
    re_entrant_scenario = (true, (.destroyed, [true])) ∧
    (∀ (A : Type) (d : SlotState Unit → A),
      runTeardown .destroyed d = (.destroyed, [])) :=
  ⟨fun _ _ _ => rfl, rfl, fun _ _ => rfl⟩

/-- Claim C4: local_scope f invokes f exactly once, on the one freshly
constructed token, and returns the value of f unchanged; moreover every
token equals the constructed one, so exactly one token exists. -/
theorem local_scope_invokes_once {R : Type} (f : LocalScope → R) :
    local_scope f = f LocalScope.unguarded_new ∧
    (∀ s : LocalScope, s = LocalScope.unguarded_new) :=
  ⟨rfl, fun s => by cases s; rfl⟩

/-- Claim C5: for every token, handle and slot state, a call to
try_access returns normally (never panics), and its single immediate
result is either the value or the AccessError. -/
theorem try_access_never_panics {T : Type} (s : LocalScope)
    (key : LocalKey T) (st : SlotState T) :
    s.try_access_run key st = .ok (s.try_access key st) ∧
    (∀ m : String, s.try_access_run key st ≠ .panicked m) ∧
    ((∃ st2 v, s.try_access key st = (st2, .ok v)) ∨
     (∃ st2 e, s.try_access key st = (st2, .error e))) := by
  refine ⟨rfl, fun m h => by simp [LocalScope.try_access_run] at h, ?_⟩
  cases st
  · exact Or.inl ⟨.ready key.init, key.init, rfl⟩
  · next v => exact Or.inl ⟨.ready v, v, rfl⟩
  · exact Or.inr ⟨.initFailed, ⟨⟩, rfl⟩
  · exact Or.inr ⟨.destroyed, ⟨⟩, rfl⟩

/-- Claim C6: when the slot is uninitialized with initializer value v,
or already initialized to v, and neither initialization has failed nor
teardown begun, try_access returns Ok v. -/
theorem try_access_success {T : Type} (s : LocalScope) (key : LocalKey T)
    (v : T) (st : SlotState T)
    (h : (st = .uninit ∧ key.init = v) ∨ st = .ready v) :
    (s.try_access key st).2 = .ok v := by
  rcases h with ⟨h1, h2⟩ | h1
  · subst h1; subst h2; rfl
  · subst h1; rfl

/-- Witness for claim C6: an uninitialized slot with initializer 5 is
read as Ok 5. -/
theorem try_access_success_witness :
    ((SlotState.uninit = (SlotState.uninit : SlotState Nat) ∧
        (⟨5⟩ : LocalKey Nat).init = 5) ∨
      (SlotState.uninit : SlotState Nat) = .ready 5) ∧
    ((⟨⟩ : LocalScope).try_access (⟨5⟩ : LocalKey Nat) .uninit).2 =
      .ok 5 :=
  ⟨Or.inl ⟨rfl, rfl⟩,
   try_access_success ⟨⟩ ⟨5⟩ 5 .uninit (Or.inl ⟨rfl, rfl⟩)⟩

/-- Claim C7: whenever try_access fails, the slot state after the call
equals the slot state before it: the failed call does not touch the
stored value. -/
theorem try_access_failure_frame {T : Type} (s : LocalScope)
    (key : LocalKey T) (st st2 : SlotState T) (e : AccessError)
    (h : s.try_access key st = (st2, .error e)) : st2 = st := by
  cases st <;>
    simp_all [LocalScope.try_access, LocalKey.try_with]

/-- Witness for claim C7: a failing access on a destroyed slot leaves
the state destroyed. -/
theorem try_access_failure_frame_witness :
    ((⟨⟩ : LocalScope).try_access (⟨0⟩ : LocalKey Nat) .destroyed =
      (.destroyed, .error ⟨⟩)) ∧
    (SlotState.destroyed : SlotState Nat) = .destroyed :=
  ⟨rfl, try_access_failure_frame ⟨⟩ ⟨0⟩ .destroyed .destroyed ⟨⟩ rfl⟩

/-- Claim C8: in one scope, with cell A initialized to 0 and cell B to
1, accessing both cells through the same token and swapping through the
obtained references succeeds without a panic and leaves A holding 1 and
B holding 0; reading each final slot returns its own new value. -/
theorem swap_test :
    swap_local_cells A_key B_key .uninit .uninit =
      ((.ready 1, .ready 0), .ok ()) ∧
    (A_key.try_with (SlotState.ready 1) (fun v => v)).2 = .ok 1 ∧
    (B_key.try_with (SlotState.ready 0) (fun v => v)).2 = .ok 0 :=
  ⟨rfl, rfl, rfl⟩

/-- Claim C9: the representation of LocalScope is not Send, not Sync,
and has the same size as the empty tuple, by computation on the type
shape (the static check), for the lifetime-independent representation. -/
theorem local_scope_not_send_not_sync_zero_sized :
    LocalScopeRepr.isSend = false ∧ LocalScopeRepr.isSync = false ∧
    LocalScopeRepr.sizeOf = RustTy.unit.sizeOf :=
  ⟨rfl, rfl, rfl⟩

/-- Claim C10: any two tokens are equal (the token carries no runtime
data), so try_access and access yield identical results for either
token on the same handle and slot state. -/
theorem try_access_token_independent {T : Type} (s1 s2 : LocalScope)
    (key : LocalKey T) (st : SlotState T) :
    s1 = s2 ∧ s1.try_access key st = s2.try_access key st ∧
    s1.access key st = s2.access key st := by
  cases s1; cases s2; exact ⟨rfl, rfl, rfl⟩
